import Mathlib

/-!
Shallow embedding of the DNG2DATA measurement core
(`src/processing/regions.py`, `src/processing/analysis.py`,
`src/processing/time_series.py`) together with theorems checking the
natural-language specification against it.

Modelling conventions:
* Python/JSON scalar values appearing in region templates are integers,
  booleans, strings, `None`, lists and dicts; they are modelled by the
  inductive type `Json` below (floats do not occur in any template or
  parameter exercised here).
* Machine floats (`numpy.float64`) are modelled by exact rationals `ℚ`;
  the population standard deviation `np.std` has no exact rational value
  in general, so the model records its square (the population variance)
  in the `var*` fields of `Stats`.
* `raise` is modelled by `Except.error` with a short message; messages
  are not part of any claim.
* Fallible Python operations (`int(..)`, `dict.get` on a non-dict,
  subscription, iteration) are modelled by small `Except`-valued
  functions mirroring CPython behaviour on the value forms that occur.
* The PIL polygon rasterizer (`ImageDraw.polygon`, an external C
  library) is passed in as an explicit parameter `pm` wherever
  `analysis.py` calls `_polygon_mask`; no claim depends on its output.
* Image arrays are total functions from coordinates to samples plus
  explicit height/width, so a numpy array's rectangular shape holds by
  construction; `ndim`/channel-count checks of the source are enforced
  by these types.
-/

/-- JSON-like values as produced by `json.load` on a template file
(numbers restricted to integers, which covers every value in scope). -/
inductive Json where
  | null
  | bool (b : Bool)
  | int (n : Int)
  | str (s : String)
  | arr (xs : List Json)
  | obj (kvs : List (String × Json))

/-- Python `==` between a JSON value and a string literal: `True` only
when the value is that string (a non-string never equals a string). -/
def Json.strEq (j : Json) (s : String) : Bool :=
  match j with
  | .str t => t == s
  | _ => false

/-- Python `int(v)` on a JSON scalar: integers pass through, booleans
coerce to 0/1, anything else raises (`TypeError`/`ValueError`).
Numeric strings, which CPython would also accept, never occur here. -/
def pyInt : Json → Except String Int
  | .int n => .ok n
  | .bool b => .ok (if b then 1 else 0)
  | _ => .error "TypeError: int() argument"

/-- Python iteration `for d in data`: lists yield their elements, dicts
their keys, strings their characters; other values raise `TypeError`. -/
def pyIter : Json → Except String (List Json)
  | .arr xs => .ok xs
  | .obj kvs => .ok (kvs.map fun kv => Json.str kv.1)
  | .str s => .ok (s.data.map fun c => Json.str c.toString)
  | _ => .error "TypeError: not iterable"

/-- Python `d.get(k, default)`: defined on dicts, `AttributeError`
otherwise.  Parsed JSON dicts have distinct keys, so first-match lookup
agrees with Python's dict semantics. -/
def pyGet (j : Json) (k : String) (d : Json) : Except String Json :=
  match j with
  | .obj kvs => .ok ((kvs.lookup k).getD d)
  | _ => .error "AttributeError: get"

/-- Python subscription `p[i]` with a nonnegative index on a JSON list. -/
def pySub (j : Json) (i : Nat) : Except String Json :=
  match j with
  | .arr xs =>
      match xs.get? i with
      | some v => .ok v
      | none => .error "IndexError"
  | _ => .error "TypeError: not subscriptable"

/-- Sequential `Except`-propagating map, mirroring a Python `for` loop
that raises out of the whole call on the first failing element. -/
def exMapM (f : α → Except String β) : List α → Except String (List β)
  | [] => .ok []
  | x :: xs =>
      match f x with
      | .error e => .error e
      | .ok y =>
          match exMapM f xs with
          | .error e => .error e
          | .ok ys => .ok (y :: ys)

mutual

/-- Model of Python `json.dumps` (no escaping: no key or value in scope
contains a character that `json.dumps` would escape). -/
def Json.dumps : Json → String
  | .null => "null"
  | .bool b => if b then "true" else "false"
  | .int n => toString n
  | .str s => "\"" ++ s ++ "\""
  | .arr xs => "[" ++ Json.dumpsList xs ++ "]"
  | .obj kvs => "\x7b" ++ Json.dumpsKV kvs ++ "\x7d"

/-- Comma-joined rendering of a JSON array's elements. -/
def Json.dumpsList : List Json → String
  | [] => ""
  | [x] => Json.dumps x
  | x :: y :: xs => Json.dumps x ++ ", " ++ Json.dumpsList (y :: xs)

/-- Comma-joined rendering of a JSON object's key/value pairs. -/
def Json.dumpsKV : List (String × Json) → String
  | [] => ""
  | [(k, v)] => "\"" ++ k ++ "\": " ++ Json.dumps v
  | (k, v) :: p :: xs => "\"" ++ k ++ "\": " ++ Json.dumps v ++ ", " ++ Json.dumpsKV (p :: xs)

end

/-! ## Region model (`src/processing/regions.py`)

The `Region` dataclass performs no validation, so each field holds
whatever JSON value the payload supplied. -/

/-- The `Region` dataclass of `regions.py`: `id`, `shape`, `params`,
with no type enforcement beyond field presence. -/
structure Region where
  id : Json
  shape : Json
  params : Json

/-- Model of `Region.to_dict`. -/
def Region.to_dict (r : Region) : Json :=
  .obj [("id", r.id), ("shape", r.shape), ("params", r.params)]

/-- Model of `Region.from_dict`: `data["id"]` etc. raise `KeyError` on a
dict missing the key and `TypeError` on a non-dict; present values are
taken as-is, with no type or value checks. -/
def Region.from_dict (d : Json) : Except String Region :=
  match d with
  | .obj kvs =>
      match kvs.lookup "id", kvs.lookup "shape", kvs.lookup "params" with
      | some i, some s, some p => .ok ⟨i, s, p⟩
      | _, _, _ => .error "KeyError"
  | _ => .error "TypeError: not subscriptable"

/-- Model of `load_template` on the parsed JSON payload (the byte/JSON
codec `json.load` is the external `json` library): iterate the payload
and build a `Region` from each element. -/
def load_template (payload : Json) : Except String (List Region) :=
  match pyIter payload with
  | .error e => .error e
  | .ok ds => exMapM Region.from_dict ds

/-- Model of `save_template` as the JSON value handed to `json.dump`
(the byte encoding itself is the external `json` library and is exact
on these values). -/
def save_template (regions : List Region) : Json :=
  .arr (regions.map Region.to_dict)

/-! ## Image model and Python slice semantics -/

/-- One RGB pixel (three float64 samples, modelled exactly in `ℚ`). -/
structure Pix where
  r : ℚ
  g : ℚ
  b : ℚ

/-- An `H×W×3` numpy array: the demosaiced RGB image consumed by
`compute_region_stats` (the source's `ndim == 3` / `shape[2] == 3`
check holds by construction of this type). -/
structure RGBImage where
  H : Nat
  W : Nat
  pix : Nat → Nat → Pix

/-- An `H×W` numpy array: the raw Bayer sensor image consumed by
`extract_raw_region`. -/
structure RawImage where
  H : Nat
  W : Nat
  pix : Nat → Nat → ℚ

/-- CPython resolution of one bound of a basic slice `a:b` (step 1) on
an axis of length `len`: negative values get `len` added and are then
clamped below by 0; nonnegative values are clamped above by `len`. -/
def pyResolve (len : Nat) (i : Int) : Nat :=
  if i < 0 then (i + len).toNat else min i.toNat len

/-- Index set selected by the Python slice `a:b` (step 1) on an axis of
length `len`, in increasing order. -/
def pySliceIdxs (len : Nat) (a b : Int) : List Nat :=
  List.range' (pyResolve len a) (pyResolve len b - pyResolve len a)

/-- Row-major coordinate list selected by `img[y:y+h, x:x+w]`. -/
def rectIdxs (H W : Nat) (x y w h : Int) : List (Nat × Nat) :=
  (pySliceIdxs H y (y + h)).flatMap fun py =>
    (pySliceIdxs W x (x + w)).map fun px => (py, px)

/-- Row-major coordinate list selected by boolean-mask indexing
`img[mask]` for a full-image predicate `pred py px`. -/
def maskIdxs (H W : Nat) (pred : Nat → Nat → Bool) : List (Nat × Nat) :=
  (List.range H).flatMap fun py =>
    ((List.range W).filter fun px => pred py px).map fun px => (py, px)

/-- Containment test of the circle branch of `compute_region_stats`:
`(x_indices - cx) ** 2 + (y_indices - cy) ** 2 <= r ** 2`. -/
def circleMember (cx cy rad : Int) (py px : Nat) : Bool :=
  decide (((px : Int) - cx) ^ 2 + ((py : Int) - cy) ^ 2 ≤ rad ^ 2)

/-- Coordinates selected by the circle mask over the full image grid. -/
def circleIdxs (H W : Nat) (cx cy rad : Int) : List (Nat × Nat) :=
  maskIdxs H W (circleMember cx cy rad)

/-! ## Statistics (`compute_region_stats` in `src/processing/analysis.py`) -/

/-- Arithmetic mean of a sample list (float64 modelled exactly). -/
def qMean (xs : List ℚ) : ℚ := xs.sum / xs.length

/-- Population variance of a sample list; the source's `np.std` is its
square root, which has no exact rational counterpart. -/
def qVar (xs : List ℚ) : ℚ := qMean (xs.map fun v => (v - qMean xs) ^ 2)

/-- One row of the statistics dict returned by `compute_region_stats`
(keys `ID`, `Shape Type`, `Parameters`, `Mean R/G/B`, `Std R/G/B`; the
`var*` fields hold the squares of the `Std` entries, see the module
comment). -/
structure Stats where
  id : Json
  shapeType : Json
  parameters : String
  meanR : ℚ
  meanG : ℚ
  meanB : ℚ
  varR : ℚ
  varG : ℚ
  varB : ℚ

/-- Common tail of `compute_region_stats`: `None` when the flattened
pixel selection is empty, otherwise per-channel mean/variance over
exactly the selected pixels. -/
def statsOfFlat (region : Region) (flat : List Pix) : Option Stats :=
  if flat.isEmpty then none
  else
    some ⟨region.id, region.shape, Json.dumps region.params,
      qMean (flat.map Pix.r), qMean (flat.map Pix.g), qMean (flat.map Pix.b),
      qVar (flat.map Pix.r), qVar (flat.map Pix.g), qVar (flat.map Pix.b)⟩

/-- Access `int(region.params.get(k, 0))`. -/
def Region.paramInt (r : Region) (k : String) : Except String Int :=
  match pyGet r.params k (.int 0) with
  | .error e => .error e
  | .ok v => pyInt v

/-- Access `[(int(p[0]), int(p[1])) for p in region.params.get("points", [])]`. -/
def Region.pointList (r : Region) : Except String (List (Int × Int)) :=
  match pyGet r.params "points" (.arr []) with
  | .error e => .error e
  | .ok pts =>
      match pyIter pts with
      | .error e => .error e
      | .ok ps =>
          exMapM (fun p =>
            match pySub p 0 with
            | .error e => .error e
            | .ok a =>
                match pyInt a with
                | .error e => .error e
                | .ok av =>
                    match pySub p 1 with
                    | .error e => .error e
                    | .ok b =>
                        match pyInt b with
                        | .error e => .error e
                        | .ok bv => .ok (av, bv)) ps

/-- The type of the external PIL polygon rasterizer `_polygon_mask`:
given the vertex list and the mask height/width, decide membership of
the pixel at row `py`, column `px`. -/
def PolyMask : Type :=
  List (Int × Int) → Nat → Nat → Nat → Nat → Bool

/-- Model of `compute_region_stats`: dispatch on `region.shape`,
flatten the selected pixels of the `H×W×3` image, and return the
statistics dict, `None` on an empty selection, or raise `ValueError`
on an unsupported shape.  `pm` is the external PIL rasterizer used by
the polygon branch. -/
def compute_region_stats (pm : PolyMask) (img : RGBImage) (region : Region) :
    Except String (Option Stats) :=
  if region.shape.strEq "rect" then
    match region.paramInt "x", region.paramInt "y",
        region.paramInt "w", region.paramInt "h" with
    | .ok x, .ok y, .ok w, .ok h =>
        .ok (statsOfFlat region
          ((rectIdxs img.H img.W x y w h).map fun q => img.pix q.1 q.2))
    | .error e, _, _, _ => .error e
    | _, .error e, _, _ => .error e
    | _, _, .error e, _ => .error e
    | _, _, _, .error e => .error e
  else if region.shape.strEq "circle" then
    match region.paramInt "cx", region.paramInt "cy", region.paramInt "r" with
    | .ok cx, .ok cy, .ok rad =>
        .ok (statsOfFlat region
          ((circleIdxs img.H img.W cx cy rad).map fun q => img.pix q.1 q.2))
    | .error e, _, _ => .error e
    | _, .error e, _ => .error e
    | _, _, .error e => .error e
  else if region.shape.strEq "polygon" then
    match region.pointList with
    | .error e => .error e
    | .ok pts =>
        .ok (statsOfFlat region
          ((maskIdxs img.H img.W (fun py px => pm pts img.H img.W py px)).map
            fun q => img.pix q.1 q.2))
  else .error "Unsupported shape"

/-! ## Raw extraction (`extract_raw_region`, `average_raw_region`) -/

/-- Python `min(xs)` on a nonempty integer list (empty case unused). -/
def intListMin : List Int → Int
  | [] => 0
  | x :: xs => xs.foldl min x

/-- Python `max(xs)` on a nonempty integer list (empty case unused). -/
def intListMax : List Int → Int
  | [] => 0
  | x :: xs => xs.foldl max x

/-- Integer interval `[a, b)` as produced by `np.ogrid[a:b]` / `np.arange`
(empty when `b ≤ a`; no negative-index wrapping, unlike array slicing). -/
def intRange (a b : Int) : List Int :=
  (List.range (b - a).toNat).map fun i => a + i

/-- Sub-array `img[rows, cols]` of a raw image, as a list of rows. -/
def rawSub (img : RawImage) (rows cols : List Nat) : List (List ℚ) :=
  rows.map fun py => cols.map fun px => img.pix py px

/-- Model of `extract_raw_region`: returns the `(data, mask)` pair —
a sub-array of the raw image plus `none` for rectangles or a boolean
mask of the same shape for circles and polygons. -/
def extract_raw_region (pm : PolyMask) (img : RawImage) (region : Region) :
    Except String (List (List ℚ) × Option (List (List Bool))) :=
  if region.shape.strEq "rect" then
    match region.paramInt "x", region.paramInt "y",
        region.paramInt "w", region.paramInt "h" with
    | .ok x, .ok y, .ok w, .ok h =>
        .ok (rawSub img (pySliceIdxs img.H y (y + h)) (pySliceIdxs img.W x (x + w)), none)
    | .error e, _, _, _ => .error e
    | _, .error e, _, _ => .error e
    | _, _, .error e, _ => .error e
    | _, _, _, .error e => .error e
  else if region.shape.strEq "circle" then
    match region.paramInt "cx", region.paramInt "cy", region.paramInt "r" with
    | .ok cx, .ok cy, .ok rad =>
        let y0 : Int := max (cy - rad) 0
        let y1 : Int := min (cy + rad + 1) (img.H : Int)
        let x0 : Int := max (cx - rad) 0
        let x1 : Int := min (cx + rad + 1) (img.W : Int)
        let sub := rawSub img (pySliceIdxs img.H y0 y1) (pySliceIdxs img.W x0 x1)
        let mask := (intRange y0 y1).map fun yy =>
          (intRange x0 x1).map fun xx =>
            decide ((xx - cx) ^ 2 + (yy - cy) ^ 2 ≤ rad ^ 2)
        .ok (sub, some mask)
    | .error e, _, _ => .error e
    | _, .error e, _ => .error e
    | _, _, .error e => .error e
  else if region.shape.strEq "polygon" then
    match region.pointList with
    | .error e => .error e
    | .ok pts =>
        if pts.isEmpty then .ok ([], none)
        else
          let xs := pts.map Prod.fst
          let ys := pts.map Prod.snd
          let x0 : Int := max (intListMin xs) 0
          let x1 : Int := min (intListMax xs + 1) (img.W : Int)
          let y0 : Int := max (intListMin ys) 0
          let y1 : Int := min (intListMax ys + 1) (img.H : Int)
          let rows := pySliceIdxs img.H y0 y1
          let cols := pySliceIdxs img.W x0 x1
          let sub := rawSub img rows cols
          let shifted := pts.map fun p => (p.1 - x0, p.2 - y0)
          let mask := (List.range rows.length).map fun i =>
            (List.range cols.length).map fun j =>
              pm shifted rows.length cols.length i j
          .ok (sub, some mask)
  else .error "Unsupported shape"

/-- Total element count of a 2-D array (`ndarray.size`). -/
def size2 (d : List (List α)) : Nat := (d.map List.length).sum

/-- Every second element of a list starting at index 0 (`xs[0::2]`). -/
def every2 : List α → List α
  | [] => []
  | [a] => [a]
  | a :: _ :: rest => a :: every2 rest

/-- Mean of a 2-D array (`float(np.mean(r)) if r.size else nan`);
`none` models the `NaN` sentinel for an empty plane. -/
def mean2 (d : List (List ℚ)) : Option ℚ :=
  if size2 d = 0 then none else some (qMean d.flatten)

/-- Flattened values of `values[m]` for a boolean mask of equal shape. -/
def maskedVals (values : List (List ℚ)) (m : List (List Bool)) : List ℚ :=
  ((values.zip m).map fun rm =>
    ((rm.1.zip rm.2).filter fun vb => vb.2).map fun vb => vb.1).flatten

/-- The inner `masked_mean` of `average_raw_region`: mean of the
mask-selected values, `NaN` (modelled `none`) when none are selected. -/
def maskedMean (values : List (List ℚ)) (m : List (List Bool)) : Option ℚ :=
  if (maskedVals values m).isEmpty then none else some (qMean (maskedVals values m))

/-- Per-plane means returned by `average_raw_region` (RGGB order);
`none` in a field models that plane's `NaN`. -/
structure RawStats where
  R : Option ℚ
  G1 : Option ℚ
  G2 : Option ℚ
  B : Option ℚ

/-- Model of `average_raw_region`: extract the region, return `None`
for empty data, otherwise split into the four parity-strided Bayer
planes (RGGB) and average each, through the mask when one is present. -/
def average_raw_region (pm : PolyMask) (img : RawImage) (region : Region) :
    Except String (Option RawStats) :=
  match extract_raw_region pm img region with
  | .error e => .error e
  | .ok (data, maskOpt) =>
      if size2 data = 0 then .ok none
      else
        let r := (every2 data).map fun row => every2 row
        let g1 := (every2 data).map fun row => every2 (row.drop 1)
        let g2 := (every2 (data.drop 1)).map fun row => every2 row
        let b := (every2 (data.drop 1)).map fun row => every2 (row.drop 1)
        match maskOpt with
        | some mask =>
            let rM := (every2 mask).map fun row => every2 row
            let g1M := (every2 mask).map fun row => every2 (row.drop 1)
            let g2M := (every2 (mask.drop 1)).map fun row => every2 row
            let bM := (every2 (mask.drop 1)).map fun row => every2 (row.drop 1)
            .ok (some ⟨maskedMean r rM, maskedMean g1 g1M,
                       maskedMean g2 g2M, maskedMean b bM⟩)
        | none =>
            .ok (some ⟨mean2 r, mean2 g1, mean2 g2, mean2 b⟩)

/-! ## Multi-region measurement and batch collection
(`measure_regions`, `collect_time_series`) -/

/-- Fixed column list of the `measure_regions` DataFrame. -/
def measureColumns : List String :=
  ["ID", "Shape Type", "Parameters",
   "Mean R", "Mean G", "Mean B", "Std R", "Std G", "Std B"]

/-- Model of `measure_regions`: statistics rows for the regions in
order, keeping only truthy (non-`None`) results; an exception from any
region aborts the whole call. -/
def measure_regions (pm : PolyMask) (img : RGBImage) (regions : List Region) :
    Except String (List Stats) :=
  match exMapM (fun reg => compute_region_stats pm img reg) regions with
  | .error e => .error e
  | .ok rows => .ok (rows.filterMap id)

/-- Python `str.lower` restricted to its per-character action. -/
def pyLower (s : String) : String := ⟨s.data.map Char.toLower⟩

/-- Python `str.endswith`. -/
def strEnds (s suf : String) : Bool := suf.data.isSuffixOf s.data

/-- Python string `<=`: lexicographic comparison by code point. -/
def charListLe : List Char → List Char → Bool
  | [], _ => true
  | _ :: _, [] => false
  | a :: as, b :: bs => if a < b then true else if b < a then false else charListLe as bs

/-- Stable insertion of a string into a sorted list (helper for
`sortStrs`). -/
def insertSorted (x : String) : List String → List String
  | [] => [x]
  | y :: ys => if charListLe x.data y.data then x :: y :: ys else y :: insertSorted x ys

/-- Model of Python `list.sort()` on strings: a stable sort into
ascending lexicographic order. -/
def sortStrs : List String → List String
  | [] => []
  | x :: xs => insertSorted x (sortStrs xs)

/-- One row of the batch table: the per-region statistics prefixed by
the image's filename and resolved timestamp (`df.insert` calls). -/
structure BatchRow where
  image : String
  timestamp : Int
  stats : Stats

/-- Fixed column list of the batch table: `Image` and `Timestamp` are
inserted in front of the `measure_regions` columns. -/
def batchColumns : List String :=
  "Image" :: "Timestamp" :: measureColumns

/-- Model of `collect_time_series` on a folder listing.  External
collaborators are parameters: `decode` is `load_dng` under the fixed
settings (returning the full-resolution RGB array), `resolveTs` is
`_get_image_timestamp` (EXIF with mtime fallback, never failing), and
`pm` the PIL rasterizer.  Filenames stand for the joined paths: the
folder prefix is common to all entries, so filtering, sorting and
`os.path.basename` commute with the join.  The Excel export is an
external sink of the returned table. -/
def collect_time_series (pm : PolyMask) (decode : String → RGBImage)
    (resolveTs : String → Int) (folderFiles : List String)
    (regions : List Region) : Except String (List BatchRow) :=
  let paths := sortStrs (folderFiles.filter fun f => strEnds (pyLower f) ".dng")
  if paths.isEmpty then .error "FileNotFoundError: No DNG images found"
  else
    match exMapM (fun p =>
      match measure_regions pm (decode p) regions with
      | .error e => .error e
      | .ok df => .ok (df.map fun s => BatchRow.mk p (resolveTs p) s)) paths with
    | .error e => .error e
    | .ok frames => .ok frames.flatten

/-! ## Spec-side definitions and concrete fixtures -/

deriving instance DecidableEq for Except

deriving instance DecidableEq for Pix

/-- Rect-axis selection written from the SPEC's words (§4.2), for
comparison with the code's `pySliceIdxs`: out-of-range slice bounds —
negative ones included — are clamped into `[0, len]` before taking the
half-open range. -/
def specClampIdxs (len : Nat) (a b : Int) : List Nat :=
  List.range' (min (max a 0).toNat len)
    (min (max b 0).toNat len - min (max a 0).toNat len)

/-- Rect pixel set written from the SPEC's words: the clamped half-open
ranges `[y, y+h) × [x, x+w)` in row-major order. -/
def specRectIdxs (H W : Nat) (x y w h : Int) : List (Nat × Nat) :=
  (specClampIdxs H y (y + h)).flatMap fun py =>
    (specClampIdxs W x (x + w)).map fun px => (py, px)

/-- Key-presence test matching exactly what `Region.from_dict` needs to
succeed on one payload element. -/
def hasRegionKeys : Json → Bool
  | .obj kvs =>
      (kvs.lookup "id").isSome && (kvs.lookup "shape").isSome &&
        (kvs.lookup "params").isSome
  | _ => false

/-- Degenerate stand-in for the external PIL rasterizer, used to close
statements about code paths that never reach it. -/
def trivialMask : PolyMask := fun _ _ _ _ _ => false

/-- Region literal for a `rect` template entry with integer params. -/
def mkRectRegion (i x y w h : Int) : Region :=
  ⟨.int i, .str "rect",
   .obj [("x", .int x), ("y", .int y), ("w", .int w), ("h", .int h)]⟩

/-- The spec's §8 raw-parity fixture: a 4×4 RGGB sensor array, all zero
except pixel `(0,0) = 100`. -/
def raw4 : RawImage := ⟨4, 4, fun py px => if py = 0 ∧ px = 0 then 100 else 0⟩

/-- The rows of `raw4` as extracted by the full-array rect region. -/
def data4 : List (List ℚ) :=
  [[100, 0, 0, 0], [0, 0, 0, 0], [0, 0, 0, 0], [0, 0, 0, 0]]

/-- A 4×4 RGB test image with every sample equal to 5. -/
def img5 : RGBImage := ⟨4, 4, fun _ _ => ⟨5, 5, 5⟩⟩

/-- Statistics row produced for a 1×1 rect at the origin of `img5`. -/
def stats5 (i : Int) : Stats :=
  ⟨.int i, .str "rect",
   Json.dumps (Json.obj
     [("x", .int 0), ("y", .int 0), ("w", .int 1), ("h", .int 1)]),
   5, 5, 5, 0, 0, 0⟩

/-! ## Helper lemmas -/

theorem from_dict_to_dict (r : Region) :
    Region.from_dict (Region.to_dict r) = .ok r := rfl

theorem from_dict_isOk (d : Json) : (Region.from_dict d).isOk = hasRegionKeys d := by
  cases d with
  | obj kvs =>
      simp only [Region.from_dict, hasRegionKeys]
      cases h1 : kvs.lookup "id" <;> cases h2 : kvs.lookup "shape" <;>
        cases h3 : kvs.lookup "params" <;> simp [Except.isOk, Except.toBool]
  | null => rfl
  | bool b => rfl
  | int n => rfl
  | str s => rfl
  | arr xs => rfl

theorem compute_rect_eq (pm : PolyMask) (img : RGBImage) (i x y w h : Int) :
    compute_region_stats pm img (mkRectRegion i x y w h) =
      .ok (statsOfFlat (mkRectRegion i x y w h)
        ((rectIdxs img.H img.W x y w h).map fun q => img.pix q.1 q.2)) := rfl

theorem sliceIdxs_eq_clamp (len : Nat) (a b : Int) (ha : 0 ≤ a) (hb : 0 ≤ b) :
    pySliceIdxs len a b = specClampIdxs len a b := by
  simp [pySliceIdxs, specClampIdxs, pyResolve, not_lt.mpr ha, not_lt.mpr hb,
    max_eq_left ha, max_eq_left hb]

theorem maskIdxs_mem (H W : Nat) (pred : Nat → Nat → Bool) (py px : Nat) :
    (py, px) ∈ maskIdxs H W pred ↔ py < H ∧ px < W ∧ pred py px = true := by
  simp only [maskIdxs, List.mem_flatMap, List.mem_map, List.mem_filter,
    List.mem_range]
  constructor
  · rintro ⟨a, ha, b, ⟨hb, hpred⟩, heq⟩
    obtain ⟨h1, h2⟩ := Prod.mk.injEq .. ▸ heq
    exact ⟨h1 ▸ ha, h2 ▸ hb, by rw [← h1, ← h2]; exact hpred⟩
  · rintro ⟨h1, h2, h3⟩
    exact ⟨py, h1, px, ⟨h2, h3⟩, rfl⟩

theorem range_filter_eq_single (n k : Nat) (p : Nat → Bool)
    (hk : ∀ i, p i = true ↔ i = k) :
    (List.range n).filter p = if k < n then [k] else [] := by
  induction n with
  | zero => simp
  | succ m ih =>
      rw [List.range_succ, List.filter_append, ih]
      by_cases hm : m = k
      · have hp : p m = true := (hk m).mpr hm
        have hnlt : ¬ k < m := by omega
        subst hm
        simp [hnlt, hp]
      · have hp : p m = false := by
          cases h : p m
          · rfl
          · exact absurd ((hk m).mp h) hm
        by_cases hlt : k < m
        · have : k < m + 1 := by omega
          simp [hlt, this, hp]
        · have : ¬ k < m + 1 := by omega
          simp [hlt, this, hp]

theorem flatMap_range_single (n k : Nat) (f : Nat → List α)
    (hf : ∀ i, i ≠ k → f i = []) :
    (List.range n).flatMap f = if k < n then f k else [] := by
  induction n with
  | zero => simp
  | succ m ih =>
      rw [List.range_succ, List.flatMap_append, ih]
      by_cases hm : m = k
      · have hnlt : ¬ k < m := by omega
        have hk1 : k < m + 1 := by omega
        subst hm
        simp [hnlt, hk1]
      · rw [show ([m].flatMap f) = f m by simp, hf m hm]
        by_cases hlt : k < m
        · have : k < m + 1 := by omega
          simp [hlt, this]
        · have : ¬ k < m + 1 := by omega
          simp [hlt, this]

theorem zeroSq_le_iff (a b : Int) : a ^ 2 + b ^ 2 ≤ 0 ↔ a = 0 ∧ b = 0 := by
  constructor
  · intro h
    constructor <;> nlinarith [sq_nonneg a, sq_nonneg b]
  · rintro ⟨ha, hb⟩
    simp [ha, hb]

theorem grid_length (xs : List α) (ys : List β) (f : α → β → γ) :
    (xs.flatMap fun u => ys.map (f u)).length = xs.length * ys.length := by
  induction xs with
  | nil => simp
  | cons a as ih =>
      simp only [List.flatMap_cons, List.length_append, List.length_map, ih,
        List.length_cons]
      ring

theorem pySliceIdxs_length_inside (len : Nat) (a c : Int)
    (ha : 0 ≤ a) (hc : 0 ≤ c) (hac : a + c ≤ (len : Int)) :
    (pySliceIdxs len a (a + c)).length = c.toNat := by
  have h1 : pyResolve len a = a.toNat := by
    simp only [pyResolve, if_neg (not_lt.mpr ha)]
    omega
  have h2 : pyResolve len (a + c) = (a + c).toNat := by
    simp only [pyResolve, if_neg (not_lt.mpr (by omega : (0 : Int) ≤ a + c))]
    omega
  simp only [pySliceIdxs, List.length_range', h1, h2]
  omega

theorem rectIdxs_length_inside (H W : Nat) (x y w h : Int)
    (hx : 0 ≤ x) (hy : 0 ≤ y) (hw : 0 ≤ w) (hh : 0 ≤ h)
    (hxw : x + w ≤ (W : Int)) (hyh : y + h ≤ (H : Int)) :
    (rectIdxs H W x y w h).length = (w * h).toNat := by
  rw [rectIdxs, grid_length,
    pySliceIdxs_length_inside H y h hy hh hyh,
    pySliceIdxs_length_inside W x w hx hw hxw]
  obtain ⟨a, rfl⟩ := Int.eq_ofNat_of_zero_le hw
  obtain ⟨b, rfl⟩ := Int.eq_ofNat_of_zero_le hh
  rw [← Nat.cast_mul, Int.toNat_natCast, Int.toNat_natCast, Int.toNat_natCast,
    Nat.mul_comm]

theorem extract_raw4_full :
    extract_raw_region trivialMask raw4 (mkRectRegion 1 0 0 4 4) =
      .ok (data4, none) := by decide

theorem compute_img5_unit (i : Int) :
    compute_region_stats trivialMask img5 (mkRectRegion i 0 0 1 1) =
      .ok (some (stats5 i)) := by
  rw [compute_rect_eq]
  have hflat : (rectIdxs img5.H img5.W 0 0 1 1).map (fun q => img5.pix q.1 q.2) =
      [⟨5, 5, 5⟩] := by decide
  rw [hflat]
  simp [statsOfFlat, mkRectRegion, stats5, qMean, qVar]

theorem compute_img5_empty :
    compute_region_stats trivialMask img5 (mkRectRegion 1 0 0 0 0) = .ok none := rfl

/-! ## Claim C1 — raw-plane parity fixture -/

/-- C1 counterexample: on the spec's own fixture (4×4 RGGB array, all
zero except `(0,0) = 100`, full-array rect region), `average_raw_region`
does NOT return `R = 100, G1 = 0, G2 = 0, B = 0`. -/
theorem c1_counterexample :
    ¬ average_raw_region trivialMask raw4 (mkRectRegion 1 0 0 4 4) =
        .ok (some ⟨some 100, some 0, some 0, some 0⟩) := by
  simp [average_raw_region, extract_raw4_full, data4, size2, every2, mean2, qMean]
  norm_num

/-- C1 (amended): for the 4×4 all-zero-except-`(0,0)=100` RGGB sensor
array, `average_raw_region` over the full array yields `R = 25` (the R
plane holds the four samples `100, 0, 0, 0`, so its mean is 25, not
100) and `G1 = G2 = B = 0` exactly. -/
theorem c1_raw_plane_means :
    average_raw_region trivialMask raw4 (mkRectRegion 1 0 0 4 4) =
      .ok (some ⟨some 25, some 0, some 0, some 0⟩) := by
  simp [average_raw_region, extract_raw4_full, data4, size2, every2, mean2, qMean]
  norm_num

/-! ## Claim C2 — no validation of degenerate region parameters -/

/-- C2 counterexample: a rect Region with negative `w` is not rejected
by `compute_region_stats` — the call returns `ok`, refuting the claim
that inconsistent params yield an `InvalidInput` error. -/
theorem c2_counterexample :
    (compute_region_stats trivialMask img5 (mkRectRegion 1 0 0 (-1) 1)).isOk = true := by
  decide

/-- C2 (amended): the statistics entry points perform no geometric
validation: a rect with negative `w` is sliced with Python
negative-index semantics and returns a normal (here non-empty) result,
and a circle with negative `r` selects exactly the same pixels as
radius `|r|`; no `InvalidInput` rejection happens at measurement time. -/
theorem c2_no_validation :
    (∃ s, compute_region_stats trivialMask img5 (mkRectRegion 1 0 0 (-1) 1) =
        .ok (some s)) ∧
    (∀ (H W : Nat) (cx cy rad : Int),
      circleIdxs H W cx cy rad = circleIdxs H W cx cy (-rad)) := by
  constructor
  · refine ⟨⟨.int 1, .str "rect",
      Json.dumps (Json.obj
        [("x", .int 0), ("y", .int 0), ("w", .int (-1)), ("h", .int 1)]),
      5, 5, 5, 0, 0, 0⟩, ?_⟩
    have hflat : (rectIdxs img5.H img5.W 0 0 (-1) 1).map (fun q => img5.pix q.1 q.2) =
        [⟨5, 5, 5⟩, ⟨5, 5, 5⟩, ⟨5, 5, 5⟩] := by decide
    rw [compute_rect_eq, hflat]
    simp [statsOfFlat, mkRectRegion, qMean, qVar]
    norm_num
  · intro H W cx cy rad
    have hm : circleMember cx cy rad = circleMember cx cy (-rad) := by
      funext py px
      simp [circleMember, neg_pow]
    rw [circleIdxs, circleIdxs, hm]

/-! ## Claim C3 — rect selection semantics -/

/-- C3 counterexample: for `x = -2, w = 1` on a 4-wide image, the
code's selection is the column `W - 2 = 2` (Python negative-index
semantics), not the empty set that clamping to `[0, W)` would give —
the claimed clamped semantics differ from the code's at this input. -/
theorem c3_counterexample : rectIdxs 4 4 (-2) 0 1 1 ≠ specRectIdxs 4 4 (-2) 0 1 1 := by
  decide

/-- C3 (amended): for nonnegative `x, y, w, h` the rect selection is
exactly the spec's clamped half-open range `[y, y+h) × [x, x+w)`, and
an empty selection yields the `None` sentinel from the entry point, not
an error; negative `x` or `y` are instead resolved Python-style
relative to the end of the axis. -/
theorem c3_rect_selection :
    (∀ (H W : Nat) (x y w h : Int), 0 ≤ x → 0 ≤ y → 0 ≤ w → 0 ≤ h →
      rectIdxs H W x y w h = specRectIdxs H W x y w h) ∧
    (∀ (pm : PolyMask) (img : RGBImage) (i x y w h : Int),
      rectIdxs img.H img.W x y w h = [] →
      compute_region_stats pm img (mkRectRegion i x y w h) = .ok none) := by
  constructor
  · intro H W x y w h hx hy hw hh
    rw [rectIdxs, specRectIdxs,
      sliceIdxs_eq_clamp H y (y + h) hy (by omega),
      sliceIdxs_eq_clamp W x (x + w) hx (by omega)]
  · intro pm img i x y w h hempty
    rw [compute_rect_eq, hempty]
    rfl

/-- C3 witness: the amended statement applied at concrete inputs — a
fully interior rect, and a zero-width rect whose empty selection gives
the `None` sentinel. -/
theorem c3_witness :
    (rectIdxs 4 4 1 1 2 2 = specRectIdxs 4 4 1 1 2 2) ∧
    (compute_region_stats trivialMask img5 (mkRectRegion 7 0 0 0 5) = .ok none) :=
  ⟨c3_rect_selection.1 4 4 1 1 2 2 (by norm_num) (by norm_num) (by norm_num)
      (by norm_num),
   c3_rect_selection.2 trivialMask img5 7 0 0 0 5 (by decide)⟩

/-! ## Claim C4 — template parsing checks -/

/-- C4 counterexample: a payload element with a non-integer `id`, an
unknown `shape` string and a non-object `params` is loaded without any
error, refuting the claim that `load_template` fails on such input. -/
theorem c4_counterexample :
    load_template (Json.arr [Json.obj
      [("id", Json.str "x"), ("shape", Json.str "hexagon"), ("params", Json.null)]]) =
      .ok [⟨Json.str "x", Json.str "hexagon", Json.null⟩] := rfl

/-- C4 (amended): on a list payload, `load_template` succeeds exactly
when every element is an object containing the keys `id`, `shape` and
`params`; the values themselves are never type- or value-checked (and
no geometric validation happens either). -/
theorem c4_template_key_check : ∀ ds : List Json,
    (load_template (Json.arr ds)).isOk = ds.all hasRegionKeys := by
  intro ds
  simp only [load_template, pyIter]
  induction ds with
  | nil => rfl
  | cons d rest ih =>
      simp only [exMapM, List.all_cons]
      cases hd : Region.from_dict d with
      | error e =>
          have hk : hasRegionKeys d = false := by rw [← from_dict_isOk, hd]; rfl
          simp [Except.isOk, Except.toBool, hk]
      | ok r =>
          have hk : hasRegionKeys d = true := by rw [← from_dict_isOk, hd]; rfl
          rw [hk]
          cases hrest : exMapM Region.from_dict rest with
          | error e =>
              rw [hrest] at ih
              simpa [Except.isOk, Except.toBool] using ih
          | ok rs =>
              rw [hrest] at ih
              simpa [Except.isOk, Except.toBool] using ih

/-! ## Claim C5 — template round-trip -/

/-- C5: deserializing the serialized form of any Region list — the
empty list included — returns the original list, order preserved:
`load_template (save_template regions) = ok regions`. -/
theorem c5_roundtrip : ∀ regions : List Region,
    load_template (save_template regions) = .ok regions := by
  intro regions
  simp only [load_template, save_template, pyIter]
  induction regions with
  | nil => rfl
  | cons r rs ih =>
      simp only [List.map_cons, exMapM, from_dict_to_dict]
      simp only [List.map] at ih
      rw [ih]

/-! ## Claim C6 — batch table shape and order -/

/-- C6 counterexample: with sources named `a.raw, b.raw, c.raw` the
collector raises (`.dng` filter leaves no candidates) instead of
producing the claimed 3-row table. -/
theorem c6_counterexample :
    collect_time_series trivialMask (fun _ => img5) (fun _ => 0)
      ["a.raw", "b.raw", "c.raw"] [mkRectRegion 1 0 0 1 1] =
      .error "FileNotFoundError: No DNG images found" := rfl

/-- C6 (amended): the collector only accepts files whose lowercased
name ends in `.dng`; for sources `c.dng, a.dng, b.dng` listed out of
order and one Region whose pixel set is non-empty in every image, the
table has exactly 3 rows whose `Image` column is
`[a.dng, b.dng, c.dng]` in sorted-filename order, and the column set is
exactly `Image, Timestamp, ID, Shape Type, Parameters, Mean R, Mean G,
Mean B, Std R, Std G, Std B`. -/
theorem c6_batch_table :
    ∀ (pm : PolyMask) (decode : String → RGBImage) (resolveTs : String → Int)
      (region : Region),
      (∀ f, ∃ s, compute_region_stats pm (decode f) region = .ok (some s)) →
      ∃ rows, collect_time_series pm decode resolveTs
          ["c.dng", "a.dng", "b.dng"] [region] = .ok rows ∧
        rows.map BatchRow.image = ["a.dng", "b.dng", "c.dng"] ∧
        rows.length = 3 ∧
        batchColumns = ["Image", "Timestamp", "ID", "Shape Type", "Parameters",
          "Mean R", "Mean G", "Mean B", "Std R", "Std G", "Std B"] := by
  intro pm decode resolveTs region h
  obtain ⟨sa, ha⟩ := h "a.dng"
  obtain ⟨sb, hb⟩ := h "b.dng"
  obtain ⟨sc, hc⟩ := h "c.dng"
  refine ⟨[⟨"a.dng", resolveTs "a.dng", sa⟩, ⟨"b.dng", resolveTs "b.dng", sb⟩,
    ⟨"c.dng", resolveTs "c.dng", sc⟩], ?_, rfl, rfl, rfl⟩
  have hpaths : sortStrs ((["c.dng", "a.dng", "b.dng"]).filter
      fun f => strEnds (pyLower f) ".dng") = ["a.dng", "b.dng", "c.dng"] := by
    decide
  simp only [collect_time_series, hpaths]
  simp [measure_regions, exMapM, ha, hb, hc, List.filterMap]

/-- C6 witness: the amended statement applied to a concrete decode
returning the constant image and a 1×1 rect region. -/
theorem c6_witness :
    ∃ rows, collect_time_series trivialMask (fun _ => img5) (fun _ => 0)
        ["c.dng", "a.dng", "b.dng"] [mkRectRegion 1 0 0 1 1] = .ok rows ∧
      rows.map BatchRow.image = ["a.dng", "b.dng", "c.dng"] ∧
      rows.length = 3 ∧
      batchColumns = ["Image", "Timestamp", "ID", "Shape Type", "Parameters",
        "Mean R", "Mean G", "Mean B", "Std R", "Std G", "Std B"] :=
  c6_batch_table trivialMask (fun _ => img5) (fun _ => 0)
    (mkRectRegion 1 0 0 1 1) (fun _ => ⟨stats5 1, compute_img5_unit 1⟩)

/-! ## Claim C7 — empty batch source -/

/-- C7: when the source folder holds no file whose lowercased name ends
in `.dng`, the collector raises (model of `FileNotFoundError`, the
spec's `NoImagesFound`) and emits no table, empty or otherwise. -/
theorem c7_no_images :
    ∀ (pm : PolyMask) (decode : String → RGBImage) (resolveTs : String → Int)
      (files : List String) (regions : List Region),
      files.filter (fun f => strEnds (pyLower f) ".dng") = [] →
      collect_time_series pm decode resolveTs files regions =
        .error "FileNotFoundError: No DNG images found" := by
  intro pm decode resolveTs files regions h
  simp only [collect_time_series, h]
  rfl

/-- C7 witness: a folder with only non-DNG files raises. -/
theorem c7_witness :
    collect_time_series trivialMask (fun _ => img5) (fun _ => 0)
      ["notes.txt", "b.jpeg"] [mkRectRegion 1 0 0 1 1] =
      .error "FileNotFoundError: No DNG images found" :=
  c7_no_images trivialMask (fun _ => img5) (fun _ => 0)
    ["notes.txt", "b.jpeg"] [mkRectRegion 1 0 0 1 1] (by decide)

/-! ## Claim C8 — circle membership -/

/-- C8: a pixel `(px, py)` belongs to the circle selection iff
`(px-cx)² + (py-cy)² ≤ r²` (closed disk, boundary inclusive), and a
radius-0 circle selects exactly the single pixel `(cx, cy)` when the
center is in bounds and nothing otherwise. -/
theorem c8_circle :
    (∀ (H W : Nat) (cx cy rad : Int) (py px : Nat),
      (py, px) ∈ circleIdxs H W cx cy rad ↔
        py < H ∧ px < W ∧ ((px : Int) - cx) ^ 2 + ((py : Int) - cy) ^ 2 ≤ rad ^ 2) ∧
    (∀ (H W : Nat) (cx cy : Int),
      circleIdxs H W cx cy 0 =
        if 0 ≤ cx ∧ cx < (W : Int) ∧ 0 ≤ cy ∧ cy < (H : Int)
        then [(cy.toNat, cx.toNat)] else []) := by
  constructor
  · intro H W cx cy rad py px
    rw [circleIdxs, maskIdxs_mem]
    simp [circleMember]
  · intro H W cx cy
    by_cases hin : 0 ≤ cx ∧ cx < (W : Int) ∧ 0 ≤ cy ∧ cy < (H : Int)
    · obtain ⟨hcx0, hcxW, hcy0, hcyH⟩ := hin
      rw [if_pos ⟨hcx0, hcxW, hcy0, hcyH⟩]
      rw [circleIdxs, maskIdxs]
      have hrow : ∀ py : Nat, py ≠ cy.toNat →
          (((List.range W).filter fun px => circleMember cx cy 0 py px).map
            fun px => (py, px)) = [] := by
        intro py hpy
        have hnil : ((List.range W).filter fun px => circleMember cx cy 0 py px) = [] := by
          rw [List.filter_eq_nil_iff]
          intro a _
          simp only [circleMember, decide_eq_true_eq]
          rw [show ((0 : Int) ^ 2 = 0) from rfl, zeroSq_le_iff]
          push_neg
          intro _
          omega
        rw [hnil, List.map_nil]
      rw [flatMap_range_single H cy.toNat _ hrow,
        if_pos (show cy.toNat < H by omega)]
      have hfilter : ((List.range W).filter fun px => circleMember cx cy 0 cy.toNat px) =
          if cx.toNat < W then [cx.toNat] else [] := by
        apply range_filter_eq_single
        intro i
        simp only [circleMember, decide_eq_true_eq]
        rw [show ((0 : Int) ^ 2 = 0) from rfl, zeroSq_le_iff]
        omega
      rw [hfilter, if_pos (show cx.toNat < W by omega), List.map_cons, List.map_nil]
    · rw [if_neg hin, circleIdxs, maskIdxs]
      rw [List.flatMap_eq_nil_iff]
      intro py hpy
      rw [List.mem_range] at hpy
      have hnil : ((List.range W).filter fun px => circleMember cx cy 0 py px) = [] := by
        rw [List.filter_eq_nil_iff]
        intro a ha
        rw [List.mem_range] at ha
        simp only [circleMember, decide_eq_true_eq]
        rw [show ((0 : Int) ^ 2 = 0) from rfl, zeroSq_le_iff]
        omega
      rw [hnil, List.map_nil]

/-! ## Claim C9 — RGB statistics over exactly the included pixels -/

/-- C9: for a rect Region fully inside the image, the sample count is
exactly `w*h`; `compute_region_stats` returns the statistics computed
by `statsOfFlat` — per-channel mean and population variance (the square
of the standard deviation) over exactly the selected pixels, all in
exact arithmetic — and an empty pixel set yields the `None` sentinel,
not zeros. -/
theorem c9_rect_stats :
    ∀ (pm : PolyMask) (img : RGBImage) (i x y w h : Int),
      0 ≤ x → 0 ≤ y → 0 ≤ w → 0 ≤ h →
      x + w ≤ (img.W : Int) → y + h ≤ (img.H : Int) →
      (rectIdxs img.H img.W x y w h).length = (w * h).toNat ∧
      compute_region_stats pm img (mkRectRegion i x y w h) =
        .ok (statsOfFlat (mkRectRegion i x y w h)
          ((rectIdxs img.H img.W x y w h).map fun q => img.pix q.1 q.2)) ∧
      (rectIdxs img.H img.W x y w h = [] →
        compute_region_stats pm img (mkRectRegion i x y w h) = .ok none) := by
  intro pm img i x y w h hx hy hw hh hxw hyh
  refine ⟨rectIdxs_length_inside img.H img.W x y w h hx hy hw hh hxw hyh,
    compute_rect_eq pm img i x y w h, ?_⟩
  intro hempty
  rw [compute_rect_eq, hempty]
  rfl

/-- C9 witness: the statement applied to a 2×2 interior rect of the
constant test image (sample count `2*2 = 4`). -/
theorem c9_witness :
    (rectIdxs img5.H img5.W 1 1 2 2).length = ((2 : Int) * 2).toNat ∧
    compute_region_stats trivialMask img5 (mkRectRegion 3 1 1 2 2) =
      .ok (statsOfFlat (mkRectRegion 3 1 1 2 2)
        ((rectIdxs img5.H img5.W 1 1 2 2).map fun q => img5.pix q.1 q.2)) ∧
    (rectIdxs img5.H img5.W 1 1 2 2 = [] →
      compute_region_stats trivialMask img5 (mkRectRegion 3 1 1 2 2) = .ok none) :=
  c9_rect_stats trivialMask img5 3 1 1 2 2 (by norm_num) (by norm_num)
    (by norm_num) (by norm_num) (by decide) (by decide)

/-! ## Claim C10 — empty regions contribute no row -/

/-- C10: a Region whose pixel set is empty (statistics `None`)
contributes no row to `measure_regions`, so a per-image table can hold
fewer rows than there are Regions with nothing marking the dropped
ones: concretely, two regions of which one is empty produce a single
row. -/
theorem c10_empty_regions_drop_rows :
    (∀ (pm : PolyMask) (img : RGBImage) (r : Region) (rs : List Region),
      compute_region_stats pm img r = .ok none →
      measure_regions pm img (r :: rs) = measure_regions pm img rs) ∧
    measure_regions trivialMask img5
      [mkRectRegion 1 0 0 0 0, mkRectRegion 2 0 0 1 1] = .ok [stats5 2] := by
  constructor
  · intro pm img r rs h
    simp only [measure_regions, exMapM, h]
    cases hrest : exMapM (fun reg => compute_region_stats pm img reg) rs with
    | error e => rfl
    | ok rows => simp [List.filterMap]
  · simp [measure_regions, exMapM, compute_img5_empty, compute_img5_unit 2,
      List.filterMap]

/-- C10 witness: dropping one concrete empty region from the front of
the region list leaves the measurement unchanged. -/
theorem c10_witness :
    measure_regions trivialMask img5 [mkRectRegion 1 0 0 0 0] =
      measure_regions trivialMask img5 [] :=
  c10_empty_regions_drop_rows.1 trivialMask img5 (mkRectRegion 1 0 0 0 0) []
    compute_img5_empty
